/-
  Verification of the LightwaveRF light platform (src/lightwave.py)
  against its natural-language specification.

  Shallow embedding: the reliable UDP transport `LWLink._send_reliable_message`
  is modelled as a function over a finite trace of receive-socket events
  (each `recvfrom` call either returns a datagram payload or raises
  `socket.timeout`); the class-level queue/thread/link_ip state of `LWLink`
  is modelled as an explicit state record; `LRFLight` is a record of its
  instance attributes.  Machine-level details (actual sockets, wall-clock
  time) are abstracted into the event trace and into counters of `sendto`
  calls and `time.sleep(0.25)` calls.
-/
import Mathlib

namespace Lightwave

/-- One event observed by `read_sock.recvfrom(1024)` inside
`_send_reliable_message` (src/lightwave.py line 128): either a datagram
arrives (its UTF-8 decoded payload), or the 2.0 s socket timeout set by
`read_sock.settimeout(LWLink.SOCKET_TIMEOUT)` (line 120) expires and
`socket.timeout` is raised. -/
inductive RxEvent
  | datagram (payload : String)
  | timeout
  deriving DecidableEq, Repr

/-- `LWLink.SOCKET_TIMEOUT = 2.0` (line 83), in seconds. -/
def SOCKET_TIMEOUT : ℚ := 2

/-- `LWLink.RX_PORT = 9761` (line 84). -/
def RX_PORT : ℕ := 9761

/-- `LWLink.TX_PORT = 9760` (line 85). -/
def TX_PORT : ℕ := 9760

/-- The backoff `time.sleep(0.25)` duration (line 139), in seconds. -/
def BACKOFF_SLEEP : ℚ := 1/4

/-- Classification of one received payload by lines 129-134 of
`_send_reliable_message`:
`response = response.decode('UTF-8').split(',')[1]` followed by
`response.startswith('OK')` / `response.startswith('ERR')` checks.
If splitting on comma yields fewer than two fields, the `[1]` index raises
an uncaught `IndexError`. -/
inductive ReplyClass
  | ok
  | err
  | other
  | indexError
  deriving DecidableEq, Repr

/-- Python `str.split(',')` on a character list: split at every comma,
keeping empty pieces, so the result always has one more piece than there
are commas (`''.split(',') == ['']`). -/
def splitCharsOnComma : List Char → List (List Char)
  | [] => [[]]
  | c :: cs =>
    if c = ',' then [] :: splitCharsOnComma cs
    else
      match splitCharsOnComma cs with
      | [] => [[c]]
      | h :: t => (c :: h) :: t

/-- `payload.split(',')` of line 129 (Python splits on the literal comma). -/
def splitOnComma (payload : String) : List String :=
  (splitCharsOnComma payload.data).map List.asString

/-- Python `str.startswith`: `s.startswith(pre)` tests whether `pre` is a
prefix of `s`. -/
def startswith (s pre : String) : Bool :=
  pre.data.isPrefixOf s.data

/-- The second comma-separated field `payload.split(',')[1]` (line 129),
`none` when the index is out of range (Python raises `IndexError`). -/
def secondField (payload : String) : Option String :=
  (splitOnComma payload).get? 1

/-- Lines 129-134: take the second comma-separated field and test its
`OK` / `ERR` prefixes, in that order. -/
def classify (payload : String) : ReplyClass :=
  match secondField payload with
  | none => ReplyClass.indexError
  | some f =>
    if startswith f "OK" then ReplyClass.ok
    else if startswith f "ERR" then ReplyClass.err
    else ReplyClass.other

/-- Result of the inner `while True:` receive loop (lines 127-134): it exits
with `result = True` on an `OK` reply, with `result = False` on an `ERR`
reply, by raising `socket.timeout` when a receive window expires, or by
raising `IndexError` on a comma-free payload; on any other payload it keeps
blocking on the receive socket. `outOfEvents` is a model artifact meaning
the finite event trace does not determine the run. -/
inductive InnerRes
  | gotOK
  | gotERR
  | sockTimeout
  | raisedIndexError
  | outOfEvents
  deriving DecidableEq, Repr

/-- The inner `while True:` receive loop (lines 127-134), consuming events
from the trace; returns the exit cause and the remaining trace. -/
def innerLoop : List RxEvent → InnerRes × List RxEvent
  | [] => (InnerRes.outOfEvents, [])
  | RxEvent.timeout :: rest => (InnerRes.sockTimeout, rest)
  | RxEvent.datagram p :: rest =>
    match classify p with
    | ReplyClass.ok => (InnerRes.gotOK, rest)
    | ReplyClass.err => (InnerRes.gotERR, rest)
    | ReplyClass.indexError => (InnerRes.raisedIndexError, rest)
    | ReplyClass.other => innerLoop rest

/-- How one call of `_send_reliable_message` resolves:
`acknowledged` = returns `True` after an `OK` reply (lines 130-132, 136-137);
`retriesExhausted` = the `while max_retries` loop runs out and the function
returns `False` (lines 122, 144); `timedOut` = `socket.timeout` is caught
and the current `result` (necessarily `False`) is returned (lines 141-142);
`raisedIndexError` = the uncaught `IndexError` from `split(',')[1]`
propagates out of the function (line 129). -/
inductive SendOutcome
  | acknowledged
  | retriesExhausted
  | timedOut
  | raisedIndexError
  deriving DecidableEq, Repr

/-- Observable effects of one `_send_reliable_message` call: number of
`write_sock.sendto` calls (line 124), number of `time.sleep(0.25)` calls
(line 139), and how the call resolved. -/
structure SendResult where
  sends : ℕ
  sleeps : ℕ
  outcome : SendOutcome
  deriving DecidableEq, Repr

/-- The outer `while max_retries:` loop (lines 122-139) with the remaining
retry budget, the remaining event trace and the effect counters so far.
Each iteration decrements the budget, sends the datagram, runs the inner
receive loop, and either returns (OK / socket.timeout / IndexError) or
sleeps 0.25 s and repeats.  `none` when the finite trace ran out. -/
def sendLoop : ℕ → List RxEvent → ℕ → ℕ → Option SendResult
  | 0, _, sends, sleeps => some ⟨sends, sleeps, SendOutcome.retriesExhausted⟩
  | r + 1, events, sends, sleeps =>
    match innerLoop events with
    | (InnerRes.gotOK, _) => some ⟨sends + 1, sleeps, SendOutcome.acknowledged⟩
    | (InnerRes.gotERR, rest) => sendLoop r rest (sends + 1) (sleeps + 1)
    | (InnerRes.sockTimeout, _) => some ⟨sends + 1, sleeps, SendOutcome.timedOut⟩
    | (InnerRes.raisedIndexError, _) =>
        some ⟨sends + 1, sleeps, SendOutcome.raisedIndexError⟩
    | (InnerRes.outOfEvents, _) => none

/-- `LWLink._send_reliable_message` (lines 108-144), as a function of the
receive-event trace: `max_retries = 15` (line 112); the message text and the
destination address do not influence control flow and are omitted here
(the destination is modelled separately, see `sendDestination`). -/
def send_reliable_message (events : List RxEvent) : Option SendResult :=
  sendLoop 15 events 0 0

/-- The class-level (process-wide) state of `LWLink` (lines 87-89): the
shared `queue.Queue` of pending messages, the shared worker-thread
reference (abstracted to whether a live worker thread exists), and the
shared `link_ip` string (initially `''`). Every `LWLink` instance reads
and writes these same class attributes. -/
structure LWState where
  the_queue : List String
  threadAlive : Bool
  link_ip : String
  deriving DecidableEq, Repr

/-- The class-attribute initial values of lines 87-89. -/
def initialLWState : LWState :=
  { the_queue := [], threadAlive := false, link_ip := "" }

/-- `LWLink.__init__` (lines 93-95): a non-`None` host overwrites the
class-level `LWLink.link_ip`; `None` leaves the class state untouched.
No per-instance attribute is ever created. -/
def LWLink_init (s : LWState) (host : Option String) : LWState :=
  match host with
  | some ip => { s with link_ip := ip }
  | none => s

/-- The destination address `(LWLink.link_ip, LWLink.TX_PORT)` used by
`write_sock.sendto` (lines 124-125) for every send of every instance. -/
def sendDestination (s : LWState) : String × ℕ :=
  (s.link_ip, TX_PORT)

/-- `LWLink.send_message` (lines 98-102): put the message at the tail of
the shared queue; if the shared thread reference is `None` or the thread
is no longer alive, create and start a new drain-worker thread (returned
flag: whether a worker was started by this call). -/
def send_message (s : LWState) (msg : String) : LWState × Bool :=
  let s1 : LWState := { s with the_queue := s.the_queue ++ [msg] }
  if s1.threadAlive then (s1, false)
  else ({ s1 with threadAlive := true }, true)

/-- Repeated `send_message` calls, one per message in order, with no drain
step interleaved (the claim's situation: all enqueues happen while the
worker has not yet drained anything). Returns the final state and the
number of worker threads started. -/
def enqueueAll (s : LWState) : List String → LWState × ℕ
  | [] => (s, 0)
  | m :: ms =>
    let p := send_message s m
    let q := enqueueAll p.1 ms
    (q.1, (if p.2 then 1 else 0) + q.2)

/-- How one run of the drain worker `_startSending` (lines 104-106) ends.
Each queue entry is paired with the receive-event trace its
`_send_reliable_message` call observes.
`completed`: the queue emptied; every popped message is listed, in pop
order, with its resolved `SendResult`.
`crashed`: a call raised the uncaught `IndexError` of line 129; the
exception propagates out of `_startSending`, the thread dies, and the
remaining messages stay in the queue unprocessed.
`undetermined`: a model artifact — some call's finite event trace ran out. -/
inductive DrainResult
  | completed (done : List (String × SendResult))
  | crashed (done : List (String × SendResult)) (failing : String)
      (unprocessed : List String)
  | undetermined (done : List (String × SendResult))
  deriving DecidableEq, Repr

/-- The drain worker `_startSending` (lines 104-106): while the shared
queue is non-empty, pop the oldest message and run
`_send_reliable_message` on it to completion before popping the next. -/
def startSending : List (String × List RxEvent) → DrainResult
  | [] => DrainResult.completed []
  | (msg, events) :: rest =>
    match send_reliable_message events with
    | none => DrainResult.undetermined []
    | some r =>
      if r.outcome = SendOutcome.raisedIndexError then
        DrainResult.crashed [] msg (rest.map Prod.fst)
      else
        match startSending rest with
        | DrainResult.completed done => DrainResult.completed ((msg, r) :: done)
        | DrainResult.crashed done f un =>
            DrainResult.crashed ((msg, r) :: done) f un
        | DrainResult.undetermined done =>
            DrainResult.undetermined ((msg, r) :: done)

/-- A receive event on which line 129's `split(',')[1]` cannot raise
`IndexError`: either a timeout, or a datagram whose payload splits on
comma into at least two fields. -/
def eventWellFormed : RxEvent → Bool
  | RxEvent.timeout => true
  | RxEvent.datagram p => (secondField p).isSome

/-- Python's built-in `round` (banker's rounding, round-half-to-even) on an
exact rational value: at a half-integer pick the even neighbour, otherwise
the nearest integer (`round` in Mathlib is `⌊x + 1/2⌋`, which agrees with
Python away from half-integers). -/
def pythonRound (x : ℚ) : ℤ :=
  if Int.fract x = 1/2 then
    if (⌊x⌋ : ℤ) % 2 = 0 then ⌊x⌋ else ⌊x⌋ + 1
  else round x

/-- `calculate_brightness` (lines 147-149): scale 0..255 brightness to the
hub's 0..32 range via `round((brightness * 32) / 255)`. The Python `/` is
exact real division here, modelled in `ℚ`. -/
def calculate_brightness (brightness : ℕ) : ℤ :=
  pythonRound ((brightness * 32 : ℚ) / 255)

/-- The message built by `async_turn_on` without a brightness argument
(line 200): `'321,!%sFdP32|Turn On|%s' % (device_id, name)`. -/
def turn_on_msg (device_id name : String) : String :=
  "321,!" ++ device_id ++ "FdP32|Turn On|" ++ name

/-- The message built by `async_turn_on` with a brightness argument
(lines 194-198): `'321,!%sFdP%d|Lights %d|%s'` with
`calculate_brightness` applied to the stored brightness. -/
def turn_on_brightness_msg (device_id name : String) (brightness : ℕ) : String :=
  "321,!" ++ device_id ++ "FdP" ++ toString (calculate_brightness brightness)
    ++ "|Lights " ++ toString (calculate_brightness brightness) ++ "|" ++ name

/-- The message built by `async_turn_off` (line 209):
`"321,!%sF0|Turn Off|%s" % (device_id, name)`. -/
def turn_off_msg (device_id name : String) : String :=
  "321,!" ++ device_id ++ "F0|Turn Off|" ++ name

/-- The instance attributes of `LRFLight` (lines 155-160); `_state` is
`None` at construction, `True`/`False` after a turn-on/turn-off intent. -/
structure LRFLight where
  _name : String
  _device_id : String
  _state : Option Bool
  _brightness : ℕ
  deriving DecidableEq, Repr

/-- `LRFLight.__init__` (lines 155-160): `_state = None`,
`_brightness = 255`. -/
def LRFLight_init (name device_id : String) : LRFLight :=
  { _name := name, _device_id := device_id, _state := none, _brightness := 255 }

/-- The `is_on` property (lines 182-185): returns `self._state`. -/
def LRFLight.is_on (l : LRFLight) : Option Bool :=
  l._state

/-- The `brightness` property (lines 177-180): returns `self._brightness`. -/
def LRFLight.brightness (l : LRFLight) : ℕ :=
  l._brightness

/-- `LRFLight.async_turn_on` (lines 187-203): set `_state = True` first;
if `ATTR_BRIGHTNESS` is in `kwargs` store it and build the
brightness-carrying message, else build the plain turn-on message; the
message is then handed to `send_message`. Returns the updated entity and
the message. -/
def async_turn_on (l : LRFLight) (brightnessArg : Option ℕ) : LRFLight × String :=
  match brightnessArg with
  | some b =>
    ({ l with _state := some true, _brightness := b },
      turn_on_brightness_msg l._device_id l._name b)
  | none =>
    ({ l with _state := some true }, turn_on_msg l._device_id l._name)

/-- `LRFLight.async_turn_off` (lines 205-212): set `_state = False` and
hand the turn-off message to `send_message`. -/
def async_turn_off (l : LRFLight) : LRFLight × String :=
  ({ l with _state := some false }, turn_off_msg l._device_id l._name)

/-- The full turn-on pipeline: the entity updates its state and builds the
message (lines 189-200), then the message goes through the queue to
`_send_reliable_message`, whose run is determined by the hub's
receive-event trace. The pair returned is the entity as the framework
sees it and the transport outcome. The entity value is computed before
and independently of the transport call, exactly as in the source. -/
def turn_on_then_send (l : LRFLight) (brightnessArg : Option ℕ)
    (hubEvents : List RxEvent) : LRFLight × Option SendResult :=
  ((async_turn_on l brightnessArg).1, send_reliable_message hubEvents)

/-- The full turn-off pipeline, analogous to `turn_on_then_send`. -/
def turn_off_then_send (l : LRFLight) (hubEvents : List RxEvent) :
    LRFLight × Option SendResult :=
  ((async_turn_off l).1, send_reliable_message hubEvents)

/-! ### Helper lemmas -/

/-- `pythonRound` never rounds below the floor. -/
lemma floor_le_pythonRound (x : ℚ) : ⌊x⌋ ≤ pythonRound x := by
  unfold pythonRound
  split
  · split
    · exact le_refl _
    · exact Int.le.intro 1 rfl
  · rw [round_eq]
    exact Int.floor_mono (by linarith)

/-- `pythonRound` never rounds above the ceiling. -/
lemma pythonRound_le_ceil (x : ℚ) : pythonRound x ≤ ⌈x⌉ := by
  unfold pythonRound
  split
  · have hfr : Int.fract x = 1/2 := by assumption
    have hlt : (⌊x⌋ : ℚ) < x := by
      have := Int.floor_add_fract x
      linarith
    have hceil : ⌊x⌋ + 1 ≤ ⌈x⌉ := Int.lt_ceil.mpr hlt
    split
    · omega
    · exact hceil
  · rw [round_eq]
    have hx : x ≤ (⌈x⌉ : ℚ) := Int.le_ceil x
    have : x + 1/2 < ((⌈x⌉ + 1 : ℤ) : ℚ) := by push_cast; linarith
    have := Int.floor_lt.mpr this
    omega

/-- A payload whose second comma-separated field starts with `OK` is
classified `ok` (lines 130-132). -/
lemma classify_ok {p f : String} (hf : secondField p = some f)
    (hok : startswith f "OK" = true) : classify p = ReplyClass.ok := by
  simp [classify, hf, hok]

/-- A payload whose second comma-separated field starts with `ERR` (and
hence not with `OK`) is classified `err` (lines 133-134). -/
lemma classify_err {p f : String} (hf : secondField p = some f)
    (hok : startswith f "OK" = false) (herr : startswith f "ERR" = true) :
    classify p = ReplyClass.err := by
  simp [classify, hf, hok, herr]

/-- The inner receive loop exits with `result = True` on an `OK` datagram. -/
lemma innerLoop_cons_ok {p : String} (rest : List RxEvent)
    (hc : classify p = ReplyClass.ok) :
    innerLoop (RxEvent.datagram p :: rest) = (InnerRes.gotOK, rest) := by
  simp [innerLoop, hc]

/-- The inner receive loop exits with `result = False` on an `ERR`
datagram. -/
lemma innerLoop_cons_err {p : String} (rest : List RxEvent)
    (hc : classify p = ReplyClass.err) :
    innerLoop (RxEvent.datagram p :: rest) = (InnerRes.gotERR, rest) := by
  simp [innerLoop, hc]

/-- The inner receive loop ignores datagrams that are neither `OK` nor
`ERR` and keeps blocking on the receive socket (lines 127-134). -/
lemma innerLoop_skip_other (junk evs : List RxEvent)
    (hjunk : ∀ e ∈ junk, ∃ q, e = RxEvent.datagram q ∧ classify q = ReplyClass.other) :
    innerLoop (junk ++ evs) = innerLoop evs := by
  induction junk with
  | nil => rfl
  | cons e j ih =>
    obtain ⟨q, rfl, hq⟩ := hjunk e (List.mem_cons_self e j)
    rw [List.cons_append]
    rw [show innerLoop (RxEvent.datagram q :: (j ++ evs)) = innerLoop (j ++ evs) by
      simp [innerLoop, hq]]
    exact ih fun e he => hjunk e (List.mem_cons_of_mem _ he)

/-- One iteration of `while max_retries:` that receives an `OK` reply
returns `True` at once (lines 130-137, 144). -/
lemma sendLoop_step_ok {events : List RxEvent} (r sends sleeps : ℕ)
    (h : (innerLoop events).1 = InnerRes.gotOK) :
    sendLoop (r + 1) events sends sleeps
      = some ⟨sends + 1, sleeps, SendOutcome.acknowledged⟩ := by
  rcases hi : innerLoop events with ⟨ires, rem⟩
  rw [hi] at h
  simp at h
  subst h
  simp [sendLoop, hi]

/-- One iteration of `while max_retries:` that receives an `ERR` reply
sleeps 0.25 s and retries with one fewer attempt left (lines 133-139). -/
lemma sendLoop_step_err {events rem : List RxEvent} (r sends sleeps : ℕ)
    (h : innerLoop events = (InnerRes.gotERR, rem)) :
    sendLoop (r + 1) events sends sleeps = sendLoop r rem (sends + 1) (sleeps + 1) := by
  simp [sendLoop, h]

/-- An expiring receive window raises `socket.timeout`, which the handler
of lines 141-142 turns into an immediate `return result` with
`result = False`. -/
lemma sendLoop_step_timeout {events : List RxEvent} (r sends sleeps : ℕ)
    (h : (innerLoop events).1 = InnerRes.sockTimeout) :
    sendLoop (r + 1) events sends sleeps
      = some ⟨sends + 1, sleeps, SendOutcome.timedOut⟩ := by
  rcases hi : innerLoop events with ⟨ires, rem⟩
  rw [hi] at h
  simp at h
  subst h
  simp [sendLoop, hi]

/-- On well-formed events the inner receive loop never raises
`IndexError`, and the events it leaves unconsumed are well-formed too. -/
lemma innerLoop_wf (events : List RxEvent)
    (hwf : ∀ e ∈ events, eventWellFormed e = true) :
    (innerLoop events).1 ≠ InnerRes.raisedIndexError
    ∧ ∀ e ∈ (innerLoop events).2, eventWellFormed e = true := by
  induction events with
  | nil => exact ⟨by simp [innerLoop], by simp [innerLoop]⟩
  | cons e rest ih =>
    have hrest : ∀ e ∈ rest, eventWellFormed e = true :=
      fun e he => hwf e (List.mem_cons_of_mem _ he)
    cases e with
    | timeout => exact ⟨by simp [innerLoop], by simpa [innerLoop] using hrest⟩
    | datagram p =>
      have hp : (secondField p).isSome = true := by
        simpa [eventWellFormed] using hwf _ (List.mem_cons_self _ rest)
      rcases hsf : secondField p with _ | f
      · rw [hsf] at hp
        simp at hp
      · have : classify p ≠ ReplyClass.indexError := by
          simp only [classify, hsf]
          split
          · simp
          · split <;> simp
        rcases hc : classify p with _ | _ | _ | _
        · exact ⟨by simp [innerLoop, hc], by simpa [innerLoop, hc] using hrest⟩
        · exact ⟨by simp [innerLoop, hc], by simpa [innerLoop, hc] using hrest⟩
        · have h2 := ih hrest
          exact ⟨by simpa [innerLoop, hc] using h2.1,
            by simpa [innerLoop, hc] using h2.2⟩
        · exact absurd hc this

/-- On well-formed events `sendLoop` never resolves by raising
`IndexError`, whatever the retry budget and counters. -/
lemma sendLoop_wf (r : ℕ) : ∀ (events : List RxEvent) (sends sleeps : ℕ),
    (∀ e ∈ events, eventWellFormed e = true) →
    ∀ res, sendLoop r events sends sleeps = some res →
      res.outcome ≠ SendOutcome.raisedIndexError := by
  induction r with
  | zero =>
    intro events sends sleeps _ res hres
    simp [sendLoop] at hres
    simp [← hres]
  | succ r ih =>
    intro events sends sleeps hwf res hres
    have hinner := innerLoop_wf events hwf
    rcases hi : innerLoop events with ⟨ires, rem⟩
    rw [hi] at hinner
    simp only at hinner
    cases ires with
    | gotOK =>
      simp [sendLoop, hi] at hres
      simp [← hres]
    | gotERR =>
      rw [sendLoop_step_err r sends sleeps hi] at hres
      exact ih rem (sends + 1) (sleeps + 1) hinner.2 res hres
    | sockTimeout =>
      simp [sendLoop, hi] at hres
      simp [← hres]
    | raisedIndexError => exact absurd rfl hinner.1
    | outOfEvents => simp [sendLoop, hi] at hres

/-- On well-formed, fully-determined schedules `_send_reliable_message`
always resolves with an outcome value, so the drain worker empties the
whole queue, in pop order. -/
lemma startSending_completed (items : List (String × List RxEvent))
    (hwf : ∀ it ∈ items, ∀ e ∈ it.2, eventWellFormed e = true)
    (hdet : ∀ it ∈ items, (send_reliable_message it.2).isSome = true) :
    ∃ done, startSending items = DrainResult.completed done
      ∧ done.map Prod.fst = items.map Prod.fst := by
  induction items with
  | nil => exact ⟨[], rfl, rfl⟩
  | cons it rest ih =>
    obtain ⟨msg, events⟩ := it
    have hsome : (send_reliable_message events).isSome = true :=
      hdet _ (List.mem_cons_self _ rest)
    rcases hres : send_reliable_message events with _ | res
    · rw [hres] at hsome
      simp at hsome
    · have hout : res.outcome ≠ SendOutcome.raisedIndexError :=
        sendLoop_wf 15 events 0 0
          (hwf _ (List.mem_cons_self _ rest)) res hres
      obtain ⟨done, hdone, hmap⟩ :=
        ih (fun it hit => hwf it (List.mem_cons_of_mem _ hit))
          (fun it hit => hdet it (List.mem_cons_of_mem _ hit))
      refine ⟨(msg, res) :: done, ?_, ?_⟩
      · simp [startSending, hres, hout, hdone]
      · simpa using hmap

/-- Enqueueing onto the shared queue while a worker thread is alive never
starts another worker and appends at the tail. -/
lemma enqueueAll_alive (ms : List String) : ∀ s : LWState,
    s.threadAlive = true →
    (enqueueAll s ms).2 = 0
    ∧ (enqueueAll s ms).1.the_queue = s.the_queue ++ ms
    ∧ (enqueueAll s ms).1.threadAlive = true := by
  induction ms with
  | nil =>
    intro s h
    exact ⟨rfl, by simp [enqueueAll], h⟩
  | cons m ms ih =>
    intro s h
    have hsm : send_message s m
        = ({ s with the_queue := s.the_queue ++ [m] }, false) := by
      simp [send_message, h]
    have := ih { s with the_queue := s.the_queue ++ [m] } h
    refine ⟨?_, ?_, ?_⟩
    · simp [enqueueAll, hsm, this.1]
    · simp only [enqueueAll, hsm]
      rw [this.2.1]
      simp
    · simp only [enqueueAll, hsm]
      exact this.2.2

/-! ### Claim theorems -/

/-- C1 counterexample: against a hub that never replies (every receive
event of all 15 possible windows is the 2.0 s `socket.timeout`), the call
does NOT perform 15 sends and 14 backoff sleeps resolving retries
exhausted: it performs exactly 1 send and 0 sleeps and returns via the
`except socket.timeout` handler, because the per-attempt window expiring
IS a socket-level timeout exception — lines 141-142 catch it and return
immediately instead of falling through to a retry. -/
theorem never_reply_counterexample :
    send_reliable_message (List.replicate 15 RxEvent.timeout)
      = some ⟨1, 0, SendOutcome.timedOut⟩
    ∧ send_reliable_message (List.replicate 15 RxEvent.timeout)
      ≠ some ⟨15, 14, SendOutcome.retriesExhausted⟩ :=
  ⟨rfl, by decide⟩

/-- C1 (amended): for every call of `_send_reliable_message` in which the
hub never replies, the first 2.0-second receive window expires as a
`socket.timeout` exception, so the call performs exactly 1 send and 0
backoff sleeps and resolves a non-acknowledged (timed-out) outcome,
aborting after the first unanswered attempt. -/
theorem never_reply_aborts_after_first_attempt (events : List RxEvent)
    (hne : events ≠ []) (hall : ∀ e ∈ events, e = RxEvent.timeout) :
    send_reliable_message events = some ⟨1, 0, SendOutcome.timedOut⟩ := by
  cases events with
  | nil => exact absurd rfl hne
  | cons e rest =>
    have he : e = RxEvent.timeout := hall e (List.mem_cons_self e rest)
    subst he
    rfl

/-- Witness for the amended C1 on the one-window silent-hub trace. -/
theorem never_reply_aborts_after_first_attempt_witness :
    (([RxEvent.timeout] : List RxEvent) ≠ []
      ∧ ∀ e ∈ ([RxEvent.timeout] : List RxEvent), e = RxEvent.timeout)
    ∧ send_reliable_message [RxEvent.timeout]
        = some ⟨1, 0, SendOutcome.timedOut⟩ :=
  ⟨⟨by decide, by decide⟩,
    never_reply_aborts_after_first_attempt [RxEvent.timeout] (by decide) (by decide)⟩

/-- C2: a `socket.timeout` exception raised before any reply is received
(the first receive event is the timeout) makes `_send_reliable_message`
resolve a timed-out, non-acknowledged outcome immediately: exactly 1 send,
no further retries, no backoff sleeps. -/
theorem socket_timeout_aborts_immediately (rest : List RxEvent) :
    send_reliable_message (RxEvent.timeout :: rest)
      = some ⟨1, 0, SendOutcome.timedOut⟩ := rfl

/-- C3: replies whose second comma-separated field starts with `ERR` on
attempts 1 and 2 and with `OK` on attempt 3 make `_send_reliable_message`
resolve acknowledged after exactly 3 sends (and 2 backoff sleeps): an
`ERR` reply counts as a failed attempt that is retried after the backoff.
(A field starting with `ERR` cannot also start with `OK`; the
`startswith f _ "OK" = false` hypotheses only record that disjointness,
mirroring the order of the checks on lines 130-134.) -/
theorem err_err_ok_acknowledged_third_send (p1 p2 p3 f1 f2 f3 : String)
    (h1 : secondField p1 = some f1) (h1k : startswith f1 "OK" = false)
    (h1e : startswith f1 "ERR" = true)
    (h2 : secondField p2 = some f2) (h2k : startswith f2 "OK" = false)
    (h2e : startswith f2 "ERR" = true)
    (h3 : secondField p3 = some f3) (h3k : startswith f3 "OK" = true) :
    send_reliable_message
        [RxEvent.datagram p1, RxEvent.datagram p2, RxEvent.datagram p3]
      = some ⟨3, 2, SendOutcome.acknowledged⟩ := by
  have hc1 := classify_err h1 h1k h1e
  have hc2 := classify_err h2 h2k h2e
  have hc3 := classify_ok h3 h3k
  show sendLoop 15 _ 0 0 = _
  rw [show (15:ℕ) = 14 + 1 from rfl,
    sendLoop_step_err 14 0 0 (innerLoop_cons_err _ hc1)]
  show sendLoop 14 _ 1 1 = _
  rw [show (14:ℕ) = 13 + 1 from rfl,
    sendLoop_step_err 13 1 1 (innerLoop_cons_err _ hc2)]
  show sendLoop 13 _ 2 2 = _
  rw [show (13:ℕ) = 12 + 1 from rfl,
    sendLoop_step_ok 12 2 2 (by rw [innerLoop_cons_ok _ hc3])]

/-- Witness for C3 with the spec's `"x,ERR"` / `"x,OK"` payloads. -/
theorem err_err_ok_acknowledged_third_send_witness :
    (secondField "x,ERR" = some "ERR" ∧ startswith "ERR" "OK" = false
      ∧ startswith "ERR" "ERR" = true ∧ secondField "x,OK" = some "OK"
      ∧ startswith "OK" "OK" = true)
    ∧ send_reliable_message [RxEvent.datagram "x,ERR",
        RxEvent.datagram "x,ERR", RxEvent.datagram "x,OK"]
      = some ⟨3, 2, SendOutcome.acknowledged⟩ :=
  ⟨⟨by decide, by decide, by decide, by decide, by decide⟩,
    err_err_ok_acknowledged_third_send "x,ERR" "x,ERR" "x,OK" "ERR" "ERR" "OK"
      (by decide) (by decide) (by decide) (by decide) (by decide) (by decide)
      (by decide) (by decide)⟩

/-- C4: a reply whose second comma-separated field starts with `OK`,
arriving during the first attempt's receive window (possibly after
unrelated datagrams the loop keeps ignoring), makes
`_send_reliable_message` resolve acknowledged after exactly one send and
zero backoff sleeps. -/
theorem ok_first_attempt_one_send (junk : List RxEvent) (p : String)
    (rest : List RxEvent) (f : String)
    (hjunk : ∀ e ∈ junk,
      ∃ q, e = RxEvent.datagram q ∧ classify q = ReplyClass.other)
    (hf : secondField p = some f) (hok : startswith f "OK" = true) :
    send_reliable_message (junk ++ RxEvent.datagram p :: rest)
      = some ⟨1, 0, SendOutcome.acknowledged⟩ := by
  have hc := classify_ok hf hok
  show sendLoop 15 _ 0 0 = _
  rw [show (15:ℕ) = 14 + 1 from rfl,
    sendLoop_step_ok 14 0 0
      (by rw [innerLoop_skip_other junk _ hjunk, innerLoop_cons_ok _ hc])]

/-- Witness for C4: one unrelated datagram, then `"x,OK"`. -/
theorem ok_first_attempt_one_send_witness :
    ((∀ e ∈ ([RxEvent.datagram "hub,chatter"] : List RxEvent),
        ∃ q, e = RxEvent.datagram q ∧ classify q = ReplyClass.other)
      ∧ secondField "x,OK" = some "OK" ∧ startswith "OK" "OK" = true)
    ∧ send_reliable_message
        ([RxEvent.datagram "hub,chatter"] ++ RxEvent.datagram "x,OK" :: [])
      = some ⟨1, 0, SendOutcome.acknowledged⟩ :=
  ⟨⟨fun e he => ⟨"hub,chatter", by simpa using he, by decide⟩,
      by decide, by decide⟩,
    ok_first_attempt_one_send [RxEvent.datagram "hub,chatter"] "x,OK" [] "OK"
      (fun e he => ⟨"hub,chatter", by simpa using he, by decide⟩)
      (by decide) (by decide)⟩

/-- C5 counterexample: a reply datagram whose payload contains no comma
(here `"garbage"`) makes line 129's `split(',')[1]` raise an `IndexError`
that `_send_reliable_message` does not catch (only `socket.timeout` is),
so the exception propagates through `_startSending`, the worker dies, and
the subsequent queued command `"m2"` is never processed. -/
theorem malformed_reply_crashes_worker :
    send_reliable_message [RxEvent.datagram "garbage"]
      = some ⟨1, 0, SendOutcome.raisedIndexError⟩
    ∧ startSending [("m1", [RxEvent.datagram "garbage"]),
        ("m2", [RxEvent.datagram "x,OK"])]
      = DrainResult.crashed [] "m1" ["m2"] := by
  exact ⟨rfl, by decide⟩

/-- C5 (amended): for every incoming reply datagram whose payload splits
on comma into at least two fields, `_send_reliable_message` resolves with
an `Outcome` value (never the uncaught `IndexError`), and under such
replies the drain worker processes every queued command in order; a
payload with no comma, however, raises an `IndexError` that propagates
past the `DispatchQueue` boundary and stops the worker. -/
theorem outcome_resolution_wellformed_replies
    (items : List (String × List RxEvent))
    (hwf : ∀ it ∈ items, ∀ e ∈ it.2, eventWellFormed e = true)
    (hdet : ∀ it ∈ items, (send_reliable_message it.2).isSome = true) :
    (∀ it ∈ items, ∀ res, send_reliable_message it.2 = some res →
      res.outcome ≠ SendOutcome.raisedIndexError)
    ∧ ∃ done, startSending items = DrainResult.completed done
        ∧ done.map Prod.fst = items.map Prod.fst :=
  ⟨fun it hit res hres => sendLoop_wf 15 it.2 0 0 (hwf it hit) res hres,
    startSending_completed items hwf hdet⟩

/-- Witness for the amended C5: one command answered `ERR` then `OK`, one
command timing out — both resolve as outcomes and the queue drains. -/
theorem outcome_resolution_wellformed_replies_witness :
    ((∀ it ∈ ([("a", [RxEvent.datagram "x,ERR", RxEvent.datagram "x,OK"]),
          ("b", [RxEvent.timeout])] : List (String × List RxEvent)),
        ∀ e ∈ it.2, eventWellFormed e = true)
      ∧ ∀ it ∈ ([("a", [RxEvent.datagram "x,ERR", RxEvent.datagram "x,OK"]),
          ("b", [RxEvent.timeout])] : List (String × List RxEvent)),
          (send_reliable_message it.2).isSome = true)
    ∧ ((∀ it ∈ ([("a", [RxEvent.datagram "x,ERR", RxEvent.datagram "x,OK"]),
          ("b", [RxEvent.timeout])] : List (String × List RxEvent)),
        ∀ res, send_reliable_message it.2 = some res →
          res.outcome ≠ SendOutcome.raisedIndexError)
      ∧ ∃ done, startSending [("a", [RxEvent.datagram "x,ERR",
            RxEvent.datagram "x,OK"]), ("b", [RxEvent.timeout])]
          = DrainResult.completed done
        ∧ done.map Prod.fst = ["a", "b"]) :=
  ⟨⟨by decide, by decide⟩,
    outcome_resolution_wellformed_replies _ (by decide) (by decide)⟩

/-- C6 counterexample: the claim's scenario holds up to the drain —
enqueueing two commands while no worker is running starts exactly one
worker and the shared queue holds them in FIFO order — but not all
enqueued commands are delivered: the hub answers the first command with a
comma-free payload, line 129's `split(',')[1]` raises an uncaught
`IndexError`, the worker dies, and `"cmd2"` is left in the queue, never
handed to `_send_reliable_message`. -/
theorem dispatch_fifo_counterexample :
    (enqueueAll initialLWState ["cmd1", "cmd2"]).2 = 1
    ∧ (enqueueAll initialLWState ["cmd1", "cmd2"]).1.the_queue
        = ["cmd1", "cmd2"]
    ∧ startSending [("cmd1", [RxEvent.datagram "malformed"]),
        ("cmd2", [RxEvent.datagram "x,OK"])]
      = DrainResult.crashed [] "cmd1" ["cmd2"] := by
  refine ⟨by decide, by decide, by decide⟩

/-- C6 (amended): with no worker running, enqueueing `N ≥ 1` commands
through `send_message` starts exactly one drain worker (later enqueues see
a live thread and are no-ops for starting) and the shared queue holds the
commands in enqueue order; provided every reply datagram the transport
receives splits on comma into at least two fields, the drain worker hands
each command to `_send_reliable_message` in that FIFO order, pairing each
with its fully resolved result before popping the next (the drain is
sequential: the `done` list is produced one fully-resolved command at a
time). Without that proviso a malformed reply kills the worker and later
commands are never delivered — see `dispatch_fifo_counterexample`. -/
theorem dispatch_queue_fifo (msgs : List String)
    (scheds : List (List RxEvent)) (s0 : LWState)
    (hidle : s0.threadAlive = false) (hne : msgs ≠ [])
    (hlen : msgs.length ≤ scheds.length)
    (hwf : ∀ it ∈ msgs.zip scheds, ∀ e ∈ it.2, eventWellFormed e = true)
    (hdet : ∀ it ∈ msgs.zip scheds,
      (send_reliable_message it.2).isSome = true) :
    (enqueueAll s0 msgs).2 = 1
    ∧ (enqueueAll s0 msgs).1.the_queue = s0.the_queue ++ msgs
    ∧ ∃ done, startSending (msgs.zip scheds) = DrainResult.completed done
        ∧ done.map Prod.fst = msgs := by
  obtain ⟨done, hdone, hmap⟩ := startSending_completed (msgs.zip scheds) hwf hdet
  have hfst : (msgs.zip scheds).map Prod.fst = msgs :=
    List.map_fst_zip msgs scheds hlen
  cases msgs with
  | nil => exact absurd rfl hne
  | cons m ms =>
    have hsm : send_message s0 m
        = ({ s0 with the_queue := s0.the_queue ++ [m], threadAlive := true },
            true) := by
      simp [send_message, hidle]
    have halive := enqueueAll_alive ms
      { s0 with the_queue := s0.the_queue ++ [m], threadAlive := true } rfl
    refine ⟨?_, ?_, done, hdone, by rw [hmap, hfst]⟩
    · simp [enqueueAll, hsm, halive.1]
    · simp only [enqueueAll, hsm]
      rw [halive.2.1]
      simp

/-- Witness for C6: two commands, both acknowledged on the first attempt,
enqueued from the idle initial class state. -/
theorem dispatch_queue_fifo_witness :
    (initialLWState.threadAlive = false
      ∧ (["off", "on"] : List String) ≠ []
      ∧ (["off", "on"] : List String).length
          ≤ ([[RxEvent.datagram "x,OK"], [RxEvent.datagram "x,OK"]] :
              List (List RxEvent)).length
      ∧ (∀ it ∈ (["off", "on"] : List String).zip
            [[RxEvent.datagram "x,OK"], [RxEvent.datagram "x,OK"]],
          ∀ e ∈ it.2, eventWellFormed e = true)
      ∧ ∀ it ∈ (["off", "on"] : List String).zip
            [[RxEvent.datagram "x,OK"], [RxEvent.datagram "x,OK"]],
          (send_reliable_message it.2).isSome = true)
    ∧ ((enqueueAll initialLWState ["off", "on"]).2 = 1
      ∧ (enqueueAll initialLWState ["off", "on"]).1.the_queue
          = initialLWState.the_queue ++ ["off", "on"]
      ∧ ∃ done, startSending ((["off", "on"] : List String).zip
            [[RxEvent.datagram "x,OK"], [RxEvent.datagram "x,OK"]])
          = DrainResult.completed done
        ∧ done.map Prod.fst = ["off", "on"]) :=
  ⟨⟨rfl, by decide, by decide, by decide, by decide⟩,
    dispatch_queue_fifo ["off", "on"]
      [[RxEvent.datagram "x,OK"], [RxEvent.datagram "x,OK"]] initialLWState
      rfl (by decide) (by decide) (by decide) (by decide)⟩

/-- C7: for every integer brightness `b` in `[0, 255]`,
`calculate_brightness b = round(b*32/255)` lies in `[0, 32]`; in
particular `calculate_brightness 255 = 32`, `calculate_brightness 0 = 0`
and `calculate_brightness 128 = 16`. -/
theorem calculate_brightness_range (b : ℕ) (hb : b ≤ 255) :
    (0 ≤ calculate_brightness b ∧ calculate_brightness b ≤ 32) ∧
    calculate_brightness 255 = 32 ∧ calculate_brightness 0 = 0 ∧
    calculate_brightness 128 = 16 := by
  refine ⟨⟨?_, ?_⟩, ?_, ?_, ?_⟩
  · have hx : (0 : ℚ) ≤ (b * 32 : ℚ) / 255 := by positivity
    have := floor_le_pythonRound ((b * 32 : ℚ) / 255)
    have := Int.floor_nonneg.mpr hx
    unfold calculate_brightness
    omega
  · have hx : (b * 32 : ℚ) / 255 ≤ 32 := by
      rw [div_le_iff₀ (by norm_num : (0:ℚ) < 255)]
      have : (b : ℚ) ≤ 255 := by exact_mod_cast hb
      linarith
    have := pythonRound_le_ceil ((b * 32 : ℚ) / 255)
    have := Int.ceil_le.mpr (by exact_mod_cast hx :
      ((b * 32 : ℚ) / 255) ≤ ((32 : ℤ) : ℚ))
    unfold calculate_brightness
    omega
  · norm_num [calculate_brightness, pythonRound, Int.fract, round_eq]
  · norm_num [calculate_brightness, pythonRound, Int.fract, round_eq]
  · norm_num [calculate_brightness, pythonRound, Int.fract, round_eq]

/-- Witness for C7 at `b = 128`. -/
theorem calculate_brightness_range_witness :
    (128 : ℕ) ≤ 255 ∧
    ((0 ≤ calculate_brightness 128 ∧ calculate_brightness 128 ≤ 32) ∧
      calculate_brightness 255 = 32 ∧ calculate_brightness 0 = 0 ∧
      calculate_brightness 128 = 16) :=
  ⟨by decide, calculate_brightness_range 128 (by decide)⟩

/-- C8: turning on without a brightness argument produces exactly
`321,!{id}FdP32|Turn On|{name}`, turning off produces exactly
`321,!{id}F0|Turn Off|{name}`, and every produced command string,
the turn-on-with-brightness variant included, begins with the literal
sequence token `321,`. -/
theorem command_encoding (device_id name : String) (b : ℕ) :
    turn_on_msg device_id name
      = "321," ++ ("!" ++ device_id ++ "FdP32|Turn On|" ++ name)
    ∧ turn_off_msg device_id name
      = "321," ++ ("!" ++ device_id ++ "F0|Turn Off|" ++ name)
    ∧ (∃ r1, turn_on_msg device_id name = "321," ++ r1)
    ∧ (∃ r2, turn_off_msg device_id name = "321," ++ r2)
    ∧ (∃ r3, turn_on_brightness_msg device_id name b = "321," ++ r3) := by
  have h : ("321,!" : String) = "321," ++ "!" := by decide
  have key : ∀ x : String, "321,!" ++ x = "321," ++ ("!" ++ x) := by
    intro x
    conv_rhs => rw [← String.append_assoc]
    rw [← h]
  have h1 : turn_on_msg device_id name
      = "321," ++ ("!" ++ device_id ++ "FdP32|Turn On|" ++ name) := by
    unfold turn_on_msg
    simp only [String.append_assoc]
    exact key _
  have h2 : turn_off_msg device_id name
      = "321," ++ ("!" ++ device_id ++ "F0|Turn Off|" ++ name) := by
    unfold turn_off_msg
    simp only [String.append_assoc]
    exact key _
  have h3 : turn_on_brightness_msg device_id name b
      = "321," ++ ("!" ++ device_id ++ "FdP"
          ++ toString (calculate_brightness b) ++ "|Lights "
          ++ toString (calculate_brightness b) ++ "|" ++ name) := by
    unfold turn_on_brightness_msg
    simp only [String.append_assoc]
    exact key _
  exact ⟨h1, h2, ⟨_, h1⟩, ⟨_, h2⟩, ⟨_, h3⟩⟩

/-- C9: after `async_turn_on` the entity reports `is_on` true (and, when a
brightness argument was given, `brightness` equal to that argument), and
after `async_turn_off` it reports `is_on` false, in both cases whatever
the transport outcome determined by the hub's event trace turns out to be:
the entity value is identical across all traces, so it is never rolled
back when the command later fails. -/
theorem optimistic_entity_state (l : LRFLight) (b : ℕ)
    (ev ev' : List RxEvent) :
    (turn_on_then_send l (some b) ev).1.is_on = some true
    ∧ (turn_on_then_send l (some b) ev).1.brightness = b
    ∧ (turn_on_then_send l none ev).1.is_on = some true
    ∧ (turn_off_then_send l ev).1.is_on = some false
    ∧ (turn_on_then_send l (some b) ev).1 = (turn_on_then_send l (some b) ev').1
    ∧ (turn_on_then_send l none ev).1 = (turn_on_then_send l none ev').1
    ∧ (turn_off_then_send l ev).1 = (turn_off_then_send l ev').1 := by
  simp [turn_on_then_send, turn_off_then_send, async_turn_on, async_turn_off,
    LRFLight.is_on, LRFLight.brightness]

/-- C10: all `LWLink` instances share one class-level state; constructing
an `LWLink` with a non-`None` host overwrites the shared `link_ip` — so
every subsequent `sendto` destination, from every instance, is the new
host with `TX_PORT = 9760` — while leaving the shared queue and worker
reference unchanged; constructing with host `None` changes nothing. -/
theorem class_level_state (s : LWState) (ip : String) :
    (LWLink_init s (some ip)).link_ip = ip
    ∧ (LWLink_init s (some ip)).the_queue = s.the_queue
    ∧ (LWLink_init s (some ip)).threadAlive = s.threadAlive
    ∧ sendDestination (LWLink_init s (some ip)) = (ip, 9760)
    ∧ LWLink_init s none = s := by
  simp [LWLink_init, sendDestination, TX_PORT]

end Lightwave
